import Mathlib

/-
Verification of the test orchestration core of the repo-test harness
(src/resources/repo_test.py and src/resources/repo_test_suite.py).

The Python code is shallowly embedded: each relevant class/method becomes a
Lean definition over explicit data.  Python object identity of a test unit is
modelled by a `test_ref` record (an identity number together with the display
name returned by getName).  Python `None` becomes `Option.none`.  A Python
method that can raise an uncaught exception is embedded as a function
returning `Option`/`Except`, where `none`/`.error` marks the raised exception.
-/

/-- The result_type enum of repo_test.py: SUCCESS = 1, WARNING = 2, ERROR = 3. -/
inductive result_type where
  | SUCCESS
  | WARNING
  | ERROR
deriving DecidableEq

/-- The numeric value of the enum member, as declared in the source. -/
def result_type.value : result_type → Nat
  | result_type.SUCCESS => 1
  | result_type.WARNING => 2
  | result_type.ERROR => 3

/-- Identity of a test unit object: a number standing for the Python object
identity plus the name returned by getName(). -/
structure test_ref where
  id : Nat
  name : String
deriving DecidableEq

/-- repo_test_result: the unit that was executed, the result_type, and the
optional message. -/
structure repo_test_result where
  test : test_ref
  result : result_type
  msg : Option String
deriving DecidableEq

/-- The str() rendering of a repo_test_result (its Python str dunder method):
a severity word followed by the owning unit's name. -/
def repo_test_result.str (r : repo_test_result) : String :=
  match r.result with
  | result_type.SUCCESS => "Success: " ++ r.test.name
  | result_type.WARNING => "Warning: " ++ r.test.name
  | result_type.ERROR => "Error: " ++ r.test.name

/-- repo_test_result.merged_result(self, other_result).

The message update in the source is the statement
`new_msg += "\n" + other_result.msg if new_msg is not None else other_result.msg`,
which Python parses as `new_msg += (... if ... else ...)`; when `new_msg` is
None and `other_result.msg` is a string this evaluates `None += str` and
raises TypeError.  The raised exception is modelled by returning `none`. -/
def merged_result (self : repo_test_result) (other_result : Option repo_test_result) :
    Option repo_test_result :=
  match other_result with
  | none => some { test := self.test, result := self.result, msg := self.msg }
  | some other =>
    let new_msg_step : Option (Option String) :=
      match other.msg with
      | none => some self.msg
      | some om =>
        match self.msg with
        | some sm => some (some (sm ++ "\n" ++ om))
        | none => none
    match new_msg_step with
    | none => none
    | some new_msg =>
      let new_error :=
        if self.result = result_type.ERROR ∨ other.result = result_type.ERROR then
          result_type.ERROR
        else if self.result = result_type.WARNING ∨ other.result = result_type.WARNING then
          result_type.WARNING
        else result_type.SUCCESS
      some { test := self.test, result := new_error, msg := new_msg }

/-- The while loop of repo_test_linked_list.initiate_test.  Each link is
represented by the repo_test_result its perform_test() returns.  The pair
returned is the trace of links whose perform_test was called (in call order)
together with the final value: `none` when merged_result raised,
`some acc` when the loop finished. -/
def chain_loop : List repo_test_result → Option repo_test_result →
    List test_ref × Option (Option repo_test_result)
  | [], acc => ([], some acc)
  | r :: rest, acc =>
    match merged_result r acc with
    | none => ([r.test], none)
    | some m =>
      let p := chain_loop rest (some m)
      (r.test :: p.1, p.2)

/-- repo_test_linked_list.initiate_test on the head of a chain whose links
(head first) return the given results.  Note the source computes
`new_result = result.merged_result(new_result)`: the newest result is the
left operand of the merge. -/
def repo_test_linked_list.initiate_test (links : List repo_test_result) :
    List test_ref × Option (Option repo_test_result) :=
  chain_loop links none

/-- The for loop of repo_test_follow.initiate_test over the sub_tests,
with `own_result` as the running accumulator (the left operand of each
merge).  Returns the trace of sub tests whose perform_test was called,
and the final accumulator (`none` when merged_result raised). -/
def follow_loop : List repo_test_result → repo_test_result →
    List test_ref × Option repo_test_result
  | [], own => ([], some own)
  | s :: rest, own =>
    match merged_result own (some s) with
    | none => ([s.test], none)
    | some own2 =>
      let p := follow_loop rest own2
      (s.test :: p.1, p.2)

/-- repo_test_follow.initiate_test: runs the primary perform_test first, then
each sub test in list order, folding with own_result on the left. -/
def repo_test_follow.initiate_test (primary : repo_test_result)
    (sub_tests : List repo_test_result) : List test_ref × Option repo_test_result :=
  let p := follow_loop sub_tests primary
  (primary.test :: p.1, p.2)

/-- Specification-side maximum of two severities under SUCCESS < WARNING < ERROR. -/
def sev_max (a b : result_type) : result_type :=
  if a.value ≤ b.value then b else a

/-- Newline-separated concatenation of a list of strings (specification side). -/
def nl_join : List String → String
  | [] => ""
  | m :: ms => if ms.isEmpty then m else m ++ "\n" ++ nl_join ms

/-- The reference of the last element of a list of chain items, with a default
for the empty list (specification side). -/
def last_ref (t : test_ref) : List (test_ref × result_type × String) → test_ref
  | [] => t
  | i :: is => last_ref i.1 is

/-- A chain item (unit reference, severity, message) packaged as the
repo_test_result its perform_test returns, with the message present. -/
def mk_chain_result (i : test_ref × result_type × String) : repo_test_result :=
  { test := i.1, result := i.2.1, msg := some i.2.2 }

/-- repo_test_unit.getResult: the base class always returns None, whatever the
unit last executed. -/
def repo_test_unit.getResult (last_executed : Option repo_test_result) :
    Option repo_test_result :=
  none

/-- The classes of repo_test.py that expose getResult.  None of them overrides
the base definition, so attribute lookup resolves getResult to
repo_test_unit.getResult for each of them. -/
inductive repo_test_class where
  | repo_test_unit
  | repo_test
  | repo_test_linked_list
  | repo_test_follow
  | file_regex_check
  | file_not_tracked_test
  | files_tracked_test
  | make_test
  | check_for_untracked_files
  | check_for_max_repo_files
  | check_for_uncommitted_files
  | check_remote_origin
  | check_remote_starter
deriving DecidableEq

/-- getResult dispatched on any unit class of repo_test.py: since no subclass
overrides it, every class resolves to the base implementation. -/
def unit_getResult (c : repo_test_class) (last_executed : Option repo_test_result) :
    Option repo_test_result :=
  repo_test_unit.getResult last_executed

/-- The result table of a repo_test_group: a Python dict keyed by the test
object, embedded as an insertion-ordered association list. -/
abbrev result_dict := List (test_ref × repo_test_result)

/-- Python dict assignment `d[k] = v`: an existing key keeps its position and
gets the new value, a new key is appended at the end. -/
def dict_set (d : result_dict) (k : test_ref) (v : repo_test_result) : result_dict :=
  if ∃ p ∈ d, p.1 = k then d.map (fun p => if p.1 = k then (k, v) else p)
  else d ++ [(k, v)]

/-- The loop of repo_test_group.getResult: the running severity update and the
accumulated message, folded over the items of the result dict in order. -/
def group_fold : result_dict → result_type → String → result_type × String
  | [], cur_result, cur_msg => (cur_result, cur_msg)
  | p :: rest, cur_result, cur_msg =>
    let cur2 :=
      if p.2.result = result_type.ERROR then result_type.ERROR
      else if p.2.result = result_type.WARNING ∧ cur_result ≠ result_type.ERROR then
        result_type.WARNING
      else cur_result
    group_fold rest cur2 (cur_msg ++ p.2.str ++ "\n")

/-- repo_test_group.getResult: folds the result dict starting from SUCCESS and
the empty message, and wraps the outcome in a Result owned by the group. -/
def repo_test_group.getResult (g : test_ref) (d : result_dict) : repo_test_result :=
  { test := g, result := (group_fold d result_type.SUCCESS "").1,
    msg := some (group_fold d result_type.SUCCESS "").2 }

/-- The member loop of repo_test_group.initiate_test: each member is the pair
of its object identity and the result its initiate_test returns; the loop
invokes members in order and stores each result in the dict.  Returns the
invocation trace and the final dict. -/
def group_run_loop : List (test_ref × repo_test_result) → result_dict →
    List test_ref × result_dict
  | [], d => ([], d)
  | m :: ms, d =>
    let p := group_run_loop ms (dict_set d m.1 m.2)
    (m.1 :: p.1, p.2)

/-- repo_test_group.initiate_test: runs every sub test in order, records each
result in the result dict, and returns getResult over the updated dict. -/
def repo_test_group.initiate_test (g : test_ref)
    (sub_tests : List (test_ref × repo_test_result)) (d : result_dict) :
    List test_ref × result_dict × repo_test_result :=
  ((group_run_loop sub_tests d).1, (group_run_loop sub_tests d).2,
   repo_test_group.getResult g (group_run_loop sub_tests d).2)

/-- Concatenation of a list of strings (specification side). -/
def concat_all : List String → String
  | [] => ""
  | x :: xs => x ++ concat_all xs

/-- The sink configuration of execute_command: whether output is echoed to
stdout (repo_test_suite.print_to_stdout), whether the aggregate log file is
open (repo_test_suite.test_log_fp), and whether a per-command log file was
opened (fp). -/
structure exec_cfg where
  print_to_stdout : Bool
  test_log_fp : Bool
  fp : Bool

/-- The lines written to each of the three sinks, in write order. -/
structure exec_sinks where
  stdout_lines : List String
  test_log_lines : List String
  fp_lines : List String
deriving DecidableEq

/-- One iteration's environment readings in the consumer while loop of
execute_command: whether proc.poll() still returns None, whether the reader
thread is alive, whether output_queue.get obtained a line within its poll
interval, and the elapsed wall-clock seconds at the timeout check. -/
structure exec_obs where
  child_running : Bool
  reader_alive : Bool
  line_ready : Bool
  elapsed : Nat

/-- The outcome of the consumer loop: the queue lines never relayed, the three
sinks, the print_error messages emitted, the returned status, and whether
proc.terminate() was called. -/
structure exec_out where
  pending : List String
  sinks : exec_sinks
  errors : List String
  returncode : Int
  terminated : Bool
deriving DecidableEq

/-- Writing one output line (already suffixed with a newline) to every enabled
sink, as the loop body of execute_command does. -/
def relay_line (cfg : exec_cfg) (s : exec_sinks) (l : String) : exec_sinks :=
  { stdout_lines := if cfg.print_to_stdout then s.stdout_lines ++ [l] else s.stdout_lines
    test_log_lines := if cfg.test_log_fp then s.test_log_lines ++ [l] else s.test_log_lines
    fp_lines := if cfg.fp then s.fp_lines ++ [l] else s.fp_lines }

/-- The message printed by execute_command when the timeout fires. -/
def exceeded_msg (t : Nat) : String :=
  "Process exceeded " ++ toString t ++ " seconds and was terminated."

/-- The consumer while loop of execute_command.  `q` holds the lines the
reader thread delivers through the queue, in the order the child emitted
them; each successful queue.get takes the next one.  The loop runs while
proc.poll() is None AND the reader thread is alive; one line at most is
relayed per iteration; after the relay attempt, a configured positive
timeout is compared against the elapsed time and on expiry the child is
terminated and the literal status 1 is returned.  When the loop condition
fails the function returns proc.returncode after proc.communicate(),
without draining the queue. -/
def execute_command_loop (cfg : exec_cfg) (timeout_seconds : Nat) (child_exit : Int) :
    List exec_obs → List String → exec_sinks → List String → exec_out
  | [], q, s, errs => { pending := q, sinks := s, errors := errs,
                        returncode := child_exit, terminated := false }
  | o :: rest, q, s, errs =>
    if o.child_running && o.reader_alive then
      let qs : List String × exec_sinks :=
        if o.line_ready then
          match q with
          | l :: q2 => (q2, relay_line cfg s (l ++ "\n"))
          | [] => ([], s)
        else (q, s)
      if 0 < timeout_seconds ∧ timeout_seconds < o.elapsed then
        { pending := qs.1, sinks := qs.2, errors := errs ++ [exceeded_msg timeout_seconds],
          returncode := 1, terminated := true }
      else
        execute_command_loop cfg timeout_seconds child_exit rest qs.1 qs.2 errs
    else
      { pending := q, sinks := s, errors := errs,
        returncode := child_exit, terminated := false }

/-- repo_test.execute_command.  The per-command log file is opened only when a
log directory and an output filename are both configured; open() raises
OSError on failure and the source wraps it in no try/except (its
`if not fp` check is dead code, since open never returns a falsy value).
subprocess.Popen raises when the command is not invocable or the working
directory is unusable, again with no handler.  A raised exception is
modelled as Except.error. -/
def execute_command (print_to_stdout test_log_fp : Bool)
    (log_dir_set process_output_filename_given open_raises popen_raises : Bool)
    (timeout_seconds : Nat) (child_exit : Int)
    (child_lines : List String) (sched : List exec_obs) : Except String exec_out :=
  if log_dir_set && process_output_filename_given && open_raises then
    Except.error "OSError: could not open process output file"
  else if popen_raises then
    Except.error "FileNotFoundError: command not invocable or working directory unusable"
  else
    Except.ok (execute_command_loop
      { print_to_stdout := print_to_stdout
        test_log_fp := test_log_fp
        fp := log_dir_set && process_output_filename_given }
      timeout_seconds child_exit sched child_lines
      { stdout_lines := [], test_log_lines := [], fp_lines := [] } [])

/-- make_test.perform_test: checks the required input files, runs the make
rule through execute_command, and classifies the outcome.  There is no
try/except anywhere on this path, so an exception raised inside
execute_command propagates out of perform_test (and hence out of the
default initiate_test, which just calls perform_test).  The warning
message for missing build files is rendered by a Python f-string of the
list; its exact rendering is abstracted to the joined file names. -/
def make_test.perform_test (t : test_ref)
    (required_input_files_missing : Bool)
    (print_to_stdout test_log_fp : Bool)
    (log_dir_set process_output_filename_given open_raises popen_raises : Bool)
    (timeout_seconds : Nat) (child_exit : Int)
    (child_lines : List String) (sched : List exec_obs)
    (missing_build_files : List String) : Except String repo_test_result :=
  if required_input_files_missing then
    Except.ok { test := t, result := result_type.ERROR, msg := none }
  else
    match execute_command print_to_stdout test_log_fp log_dir_set
        process_output_filename_given open_raises popen_raises
        timeout_seconds child_exit child_lines sched with
    | Except.error e => Except.error e
    | Except.ok out =>
      if out.returncode ≠ 0 then
        Except.ok { test := t, result := result_type.ERROR, msg := none }
      else if missing_build_files ≠ [] then
        Except.ok { test := t, result := result_type.WARNING,
                    msg := some ("Missing build files: " ++
                      String.intercalate ", " missing_build_files) }
      else
        Except.ok { test := t, result := result_type.SUCCESS, msg := none }

/-- A concrete group identity used to instantiate the group theorems. -/
def group_witness_g : test_ref := { id := 9, name := "grp" }

/-- Two concrete distinct group members with their first-run results. -/
def group_witness_subs : List (test_ref × repo_test_result) :=
  [({ id := 1, name := "build" },
    { test := { id := 1, name := "build" }, result := result_type.SUCCESS, msg := none }),
   ({ id := 2, name := "check" },
    { test := { id := 2, name := "check" }, result := result_type.ERROR, msg := some "boom" })]

/-- The same two members with different second-run results. -/
def group_witness_subs2 : List (test_ref × repo_test_result) :=
  [({ id := 1, name := "build" },
    { test := { id := 1, name := "build" }, result := result_type.WARNING, msg := none }),
   ({ id := 2, name := "check" },
    { test := { id := 2, name := "check" }, result := result_type.SUCCESS, msg := none })]

/-- Claim C1: merged_result is claimed to produce, for every pair of Results,
a Result whose severity is the maximum of the two severities, and to return a
copy of the left Result when the right operand is None.  The None-identity
part and the max-severity part hold where the merge completes, but when the
left message is absent and the right message is present the message update
executes the Python statement None += str and raises TypeError, so no Result
at all is produced for such pairs: the first conjunct evaluates the merge at
such a pair (severities SUCCESS and WARNING) to the raised exception. -/
theorem merged_result_severity_crash :
    merged_result { test := { id := 0, name := "a" }, result := result_type.SUCCESS, msg := none }
        (some { test := { id := 1, name := "b" }, result := result_type.WARNING, msg := some "w" })
      = none ∧
    merged_result { test := { id := 0, name := "a" }, result := result_type.SUCCESS, msg := some "ok" }
        (some { test := { id := 1, name := "b" }, result := result_type.WARNING, msg := some "w" })
      = some { test := { id := 0, name := "a" }, result := result_type.WARNING,
               msg := some ("ok" ++ "\n" ++ "w") } ∧
    merged_result { test := { id := 0, name := "a" }, result := result_type.WARNING, msg := some "x" }
        none
      = some { test := { id := 0, name := "a" }, result := result_type.WARNING, msg := some "x" } :=
  ⟨rfl, rfl, rfl⟩

/-- Claim C2: the message of a merged Result follows the claimed rule in three
of its four cases (both messages present: newline concatenation; only the left
present: the left; both absent: absent), but in the case the claim singles out
as holding, a left Result with an absent message merged with a right Result
with a present message, merged_result raises TypeError instead of returning
the present message: the merge is not total. -/
theorem merged_result_message_cases :
    merged_result { test := { id := 5, name := "e" }, result := result_type.SUCCESS, msg := some "m1" }
        (some { test := { id := 6, name := "f" }, result := result_type.SUCCESS, msg := some "m2" })
      = some { test := { id := 5, name := "e" }, result := result_type.SUCCESS,
               msg := some ("m1" ++ "\n" ++ "m2") } ∧
    merged_result { test := { id := 5, name := "e" }, result := result_type.SUCCESS, msg := some "m1" }
        (some { test := { id := 6, name := "f" }, result := result_type.SUCCESS, msg := none })
      = some { test := { id := 5, name := "e" }, result := result_type.SUCCESS, msg := some "m1" } ∧
    merged_result { test := { id := 5, name := "e" }, result := result_type.SUCCESS, msg := none }
        (some { test := { id := 6, name := "f" }, result := result_type.SUCCESS, msg := none })
      = some { test := { id := 5, name := "e" }, result := result_type.SUCCESS, msg := none } ∧
    merged_result { test := { id := 5, name := "e" }, result := result_type.SUCCESS, msg := none }
        (some { test := { id := 6, name := "f" }, result := result_type.SUCCESS, msg := some "m2" })
      = none :=
  ⟨rfl, rfl, rfl, rfl⟩

/-- Claim C3 (counterexample): a two-link chain whose links both succeed with
messages m1 and m2 returns a Result owned by the SECOND link whose message is
m2 then m1 — not, as claimed, a Result owned by the head with the messages in
head-to-tail order — because the source folds with the newest result as the
left operand of merged_result. -/
theorem chain_fold_operand_order_counterexample :
    repo_test_linked_list.initiate_test
        [{ test := { id := 0, name := "t1" }, result := result_type.SUCCESS, msg := some "m1" },
         { test := { id := 1, name := "t2" }, result := result_type.SUCCESS, msg := some "m2" }]
      = ([{ id := 0, name := "t1" }, { id := 1, name := "t2" }],
         some (some { test := { id := 1, name := "t2" }, result := result_type.SUCCESS,
                      msg := some ("m2" ++ "\n" ++ "m1") })) ∧
    ({ id := 1, name := "t2" } : test_ref) ≠ { id := 0, name := "t1" } ∧
    ("m2" ++ "\n" ++ "m1" : String) ≠ "m1" ++ "\n" ++ "m2" :=
  ⟨rfl, by decide, by decide⟩

/-- Claim C4: a Follow unit whose primary returns ERROR with no message and
whose two subordinates return SUCCESS with messages raises TypeError inside
merged_result right after the first subordinate's check, so the second
subordinate never executes and no Result is returned — against the claim that
every subordinate always runs and a folded Result comes back.  The second
conjunct shows the claimed behaviour (trace primary-then-subordinates, worst
severity, primary as owner, all messages concatenated) on the same Follow
once the primary's message is present, locating the failure in the message
merge alone. -/
theorem follow_crash_and_fold_eval :
    repo_test_follow.initiate_test
        { test := { id := 0, name := "p" }, result := result_type.ERROR, msg := none }
        [{ test := { id := 1, name := "s1" }, result := result_type.SUCCESS, msg := some "sub1" },
         { test := { id := 2, name := "s2" }, result := result_type.SUCCESS, msg := some "sub2" }]
      = ([{ id := 0, name := "p" }, { id := 1, name := "s1" }], none) ∧
    repo_test_follow.initiate_test
        { test := { id := 0, name := "p" }, result := result_type.ERROR, msg := some "prim" }
        [{ test := { id := 1, name := "s1" }, result := result_type.SUCCESS, msg := some "sub1" },
         { test := { id := 2, name := "s2" }, result := result_type.SUCCESS, msg := some "sub2" }]
      = ([{ id := 0, name := "p" }, { id := 1, name := "s1" }, { id := 2, name := "s2" }],
         some { test := { id := 0, name := "p" }, result := result_type.ERROR,
                msg := some ("prim" ++ "\n" ++ "sub1" ++ "\n" ++ "sub2") }) :=
  ⟨rfl, rfl⟩

/-- Claim C5 (counterexample): when the same test object is added to a group
twice, initiate_test invokes it twice but the result dict — keyed by the test
object — holds a single entry, so the table does not have exactly as many
entries as members. -/
theorem group_duplicate_member_counterexample :
    (repo_test_group.initiate_test { id := 9, name := "grp" }
        [({ id := 0, name := "dup" },
          { test := { id := 0, name := "dup" }, result := result_type.SUCCESS, msg := none }),
         ({ id := 0, name := "dup" },
          { test := { id := 0, name := "dup" }, result := result_type.SUCCESS, msg := none })]
        []).2.1.length = 1 ∧
    ([({ id := 0, name := "dup" },
       { test := { id := 0, name := "dup" }, result := result_type.SUCCESS, msg := none }),
      ({ id := 0, name := "dup" },
       { test := { id := 0, name := "dup" }, result := result_type.SUCCESS, msg := none })] :
      List (test_ref × repo_test_result)).length = 2 :=
  ⟨by decide, by decide⟩

/-- Claim C6 (counterexample): the status returned when the timeout fires is
the literal 1, which is exactly what a run returns when the child exits
normally with status 1 before the timeout — the timeout status is therefore
not distinct from every normal non-zero exit status. -/
theorem timeout_status_not_distinct :
    (execute_command_loop { print_to_stdout := true, test_log_fp := true, fp := true }
        60 0
        [{ child_running := true, reader_alive := true, line_ready := false, elapsed := 61 }]
        [] { stdout_lines := [], test_log_lines := [], fp_lines := [] } []).returncode = 1 ∧
    (execute_command_loop { print_to_stdout := true, test_log_fp := true, fp := true }
        60 1
        [{ child_running := true, reader_alive := true, line_ready := false, elapsed := 1 },
         { child_running := false, reader_alive := false, line_ready := false, elapsed := 2 }]
        [] { stdout_lines := [], test_log_lines := [], fp_lines := [] } []).returncode = 1 :=
  ⟨rfl, rfl⟩

/-- Claim C7: when the child terminates, the consumer loop's condition
`proc.poll() is None and output_thread.is_alive()` turns false and the loop
exits at once; nothing after the loop drains the queue.  With two lines still
queued (the child wrote them and exited before the first condition check), the
loop relays nothing: every sink stays empty while both lines remain pending,
so the child's final buffered output is dropped rather than drained. -/
theorem pending_lines_dropped_on_exit :
    execute_command_loop { print_to_stdout := true, test_log_fp := true, fp := true }
        0 0
        [{ child_running := false, reader_alive := false, line_ready := false, elapsed := 0 }]
        ["line1", "line2"] { stdout_lines := [], test_log_lines := [], fp_lines := [] } []
      = { pending := ["line1", "line2"],
          sinks := { stdout_lines := [], test_log_lines := [], fp_lines := [] },
          errors := [], returncode := 0, terminated := false } :=
  rfl

/-- Claim C8: a unit that runs a command does not convert low-level failures
into Results.  When the per-command log file cannot be opened, open() raises
OSError, and when the command is not invocable or the working directory is
unusable, Popen raises; no try/except on the path through execute_command
and make_test.perform_test catches either, so the raw exception propagates
past the unit boundary instead of becoming an error-level Result. -/
theorem make_test_exception_escapes :
    make_test.perform_test { id := 0, name := "make build" }
        false true true true true true false 60 0 [] [] []
      = Except.error "OSError: could not open process output file" ∧
    make_test.perform_test { id := 0, name := "make build" }
        false true true false false false true 60 0 [] [] []
      = Except.error "FileNotFoundError: command not invocable or working directory unusable" :=
  ⟨rfl, rfl⟩

/-- Claim C9: invoking a group with no members (its result dict empty) returns
a Result owned by the group with SUCCESS severity and the empty message. -/
theorem group_empty_result (g : test_ref) :
    repo_test_group.initiate_test g [] []
      = ([], [], { test := g, result := result_type.SUCCESS, msg := some "" }) ∧
    repo_test_group.getResult g []
      = { test := g, result := result_type.SUCCESS, msg := some "" } :=
  ⟨rfl, rfl⟩

/-- Claim C10: getResult on every unit class that does not override it (all of
them except repo_test_group) returns None unconditionally, whatever the unit
last executed. -/
theorem getResult_always_none (c : repo_test_class) (s : Option repo_test_result) :
    unit_getResult c s = none :=
  rfl

/-- The merged severity branch of merged_result computes the maximum of the
two severities under SUCCESS < WARNING < ERROR. -/
theorem merged_sev_eq (w v : result_type) :
    (if w = result_type.ERROR ∨ v = result_type.ERROR then result_type.ERROR
     else if w = result_type.WARNING ∨ v = result_type.WARNING then result_type.WARNING
     else result_type.SUCCESS) = sev_max v w := by
  cases w <;> cases v <;> decide

/-- SUCCESS is the neutral element of sev_max on the left. -/
theorem sev_max_SUCCESS_left (v : result_type) : sev_max result_type.SUCCESS v = v := by
  cases v <;> decide

/-- A list with an appended cons is never empty. -/
theorem isEmpty_append_cons (xs : List String) (c : String) (cs : List String) :
    (xs ++ c :: cs).isEmpty = false := by
  cases xs <;> rfl

/-- nl_join on a cons with a nonempty tail splits off the head and a newline. -/
theorem nl_join_cons_ne (x : String) (ys : List String) (h : ys.isEmpty = false) :
    nl_join (x :: ys) = x ++ "\n" ++ nl_join ys := by
  simp [nl_join, h]

/-- Joining with the last two elements fused by a newline gives the same
string as joining with them separate. -/
theorem nl_join_append_pair (xs : List String) (a b : String) :
    nl_join (xs ++ [a, b]) = nl_join (xs ++ [a ++ "\n" ++ b]) := by
  induction xs with
  | nil => rfl
  | cons x xs ih =>
      rw [List.cons_append, List.cons_append,
        nl_join_cons_ne x _ (isEmpty_append_cons xs a [b]),
        nl_join_cons_ne x _ (isEmpty_append_cons xs (a ++ "\n" ++ b) []), ih]

/-- Closed form of the chain loop over links whose messages are all present,
with a running accumulator: the trace lists every remaining link in order,
the final owner is the last link, the severity is the fold of sev_max, and
the message is the newline join of the remaining messages in reverse order,
ending with the accumulated message. -/
theorem chain_loop_all_msgs (rest : List (test_ref × result_type × String))
    (t : test_ref) (v : result_type) (s : String) :
    chain_loop (rest.map mk_chain_result)
        (some { test := t, result := v, msg := some s })
      = (rest.map (fun i => i.1),
         some (some { test := last_ref t rest,
                      result := rest.foldl (fun a i => sev_max a i.2.1) v,
                      msg := some (nl_join (rest.reverse.map (fun i => i.2.2) ++ [s])) })) := by
  induction rest generalizing t v s with
  | nil => simp [chain_loop, last_ref, nl_join]
  | cons i is ih =>
      simp only [List.map_cons, chain_loop, merged_result, mk_chain_result, merged_sev_eq, ih,
        last_ref, List.foldl_cons, List.reverse_cons, List.map_append, List.map_cons,
        List.map_nil, List.append_assoc, List.singleton_append, List.cons_append,
        List.nil_append]
      rw [nl_join_append_pair]

/-- Claim C3 (amended): invoking the head of a nonempty chain whose links all
return results with a present message calls every link's check exactly once in
head-to-tail order with no short-circuit, and returns a merged Result whose
severity is the worst of all link severities; but because the loop folds with
the newest result as the left operand of merged_result, the owning unit is the
LAST link's and the message is the newline concatenation of the link messages
in tail-to-head order. -/
theorem chain_initiate_closed_form (first : test_ref × result_type × String)
    (rest : List (test_ref × result_type × String)) :
    repo_test_linked_list.initiate_test ((first :: rest).map mk_chain_result)
      = ((first :: rest).map (fun i => i.1),
         some (some { test := last_ref first.1 rest,
                      result := (first :: rest).foldl (fun a i => sev_max a i.2.1)
                        result_type.SUCCESS,
                      msg := some (nl_join ((first :: rest).reverse.map (fun i => i.2.2))) })) := by
  simp only [repo_test_linked_list.initiate_test, List.map_cons, chain_loop, merged_result,
    mk_chain_result, chain_loop_all_msgs, List.foldl_cons, sev_max_SUCCESS_left,
    List.reverse_cons, List.map_append, List.map_nil, List.nil_append]

/-- Mapping the replace-at-key function over a dict that does not contain the
key leaves the dict unchanged. -/
theorem dict_map_skip (d : result_dict) (k : test_ref) (v : repo_test_result)
    (h : ∀ p ∈ d, p.1 ≠ k) :
    d.map (fun p => if p.1 = k then (k, v) else p) = d := by
  induction d with
  | nil => rfl
  | cons p d ih =>
      rw [List.map_cons, if_neg (h p (by simp)), ih (fun q hq => h q (by simp [hq]))]

/-- Assigning a key absent from the dict appends the pair at the end. -/
theorem dict_set_fresh (d : result_dict) (k : test_ref) (v : repo_test_result)
    (h : ∀ p ∈ d, p.1 ≠ k) :
    dict_set d k v = d ++ [(k, v)] := by
  unfold dict_set
  rw [if_neg (by push_neg; exact h)]

/-- Assigning a key that sits at the head of a dict whose tail does not
contain it replaces the head value in place. -/
theorem dict_set_replace_head (k : test_ref) (v0 v : repo_test_result) (d : result_dict)
    (h : ∀ p ∈ d, p.1 ≠ k) :
    dict_set ((k, v0) :: d) k v = (k, v) :: d := by
  unfold dict_set
  rw [if_pos ⟨(k, v0), by simp, rfl⟩, List.map_cons, if_pos rfl, dict_map_skip d k v h]

/-- Assigning a key different from the head key leaves the head in place and
acts on the tail. -/
theorem dict_set_cons_ne (a : test_ref × repo_test_result) (d : result_dict)
    (k : test_ref) (v : repo_test_result) (h : a.1 ≠ k) :
    dict_set (a :: d) k v = a :: dict_set d k v := by
  unfold dict_set
  by_cases hd : ∃ p ∈ d, p.1 = k
  · obtain ⟨p, hp, hpk⟩ := hd
    rw [if_pos ⟨p, by simp [hp], hpk⟩, if_pos ⟨p, hp, hpk⟩, List.map_cons, if_neg h]
  · rw [if_neg ?_, if_neg hd, List.cons_append]
    rintro ⟨p, hp, hpk⟩
    rcases List.mem_cons.mp hp with rfl | hp2
    · exact h hpk
    · exact hd ⟨p, hp2, hpk⟩

/-- The group member loop invokes every member in list order. -/
theorem group_run_loop_trace (subs : List (test_ref × repo_test_result)) (d : result_dict) :
    (group_run_loop subs d).1 = subs.map Prod.fst := by
  induction subs generalizing d with
  | nil => rfl
  | cons m ms ih => simp [group_run_loop, ih]

/-- Running members whose keys are pairwise distinct and absent from the dict
appends one entry per member, in member order. -/
theorem group_run_loop_fresh (subs : List (test_ref × repo_test_result)) (d : result_dict)
    (h1 : (subs.map Prod.fst).Nodup)
    (h2 : ∀ p ∈ subs, ∀ q ∈ d, q.1 ≠ p.1) :
    (group_run_loop subs d).2 = d ++ subs := by
  induction subs generalizing d with
  | nil => simp [group_run_loop]
  | cons m ms ih =>
      obtain ⟨hm, hms⟩ := List.nodup_cons.mp h1
      simp only [group_run_loop]
      rw [dict_set_fresh d m.1 m.2 (fun q hq => h2 m (by simp) q hq)]
      rw [ih (d ++ [(m.1, m.2)]) hms ?_]
      · simp
      · intro p hp q hq
        rcases List.mem_append.mp hq with hq1 | hq2
        · exact h2 p (by simp [hp]) q hq1
        · have : q = (m.1, m.2) := by simpa using hq2
          subst this
          intro hk
          exact hm (hk ▸ List.mem_map_of_mem Prod.fst hp)

/-- Running members whose keys all differ from a head entry's key never
touches that head entry. -/
theorem group_run_loop_cons_ne (ms : List (test_ref × repo_test_result))
    (a : test_ref × repo_test_result) (d : result_dict)
    (h : ∀ p ∈ ms, a.1 ≠ p.1) :
    (group_run_loop ms (a :: d)).2 = a :: (group_run_loop ms d).2 := by
  induction ms generalizing d with
  | nil => rfl
  | cons m ms ih =>
      simp only [group_run_loop]
      rw [dict_set_cons_ne a d m.1 m.2 (h m (by simp))]
      exact ih _ (fun p hp => h p (by simp [hp]))

/-- Re-running members over a dict holding exactly their keys (in the same
order, pairwise distinct) overwrites every entry in place: the dict becomes
the new member results, with unchanged size and order. -/
theorem group_run_loop_overwrite (subs2 : List (test_ref × repo_test_result)) (d : result_dict)
    (hk : d.map Prod.fst = subs2.map Prod.fst)
    (hn : (subs2.map Prod.fst).Nodup) :
    (group_run_loop subs2 d).2 = subs2 := by
  induction subs2 generalizing d with
  | nil =>
      cases d with
      | nil => rfl
      | cons p d' => simp at hk
  | cons m ms ih =>
      cases d with
      | nil => simp at hk
      | cons p d' =>
          simp only [List.map_cons, List.cons.injEq] at hk
          obtain ⟨hpk, hd'⟩ := hk
          obtain ⟨hm, hms⟩ := List.nodup_cons.mp hn
          have hnot : ∀ q ∈ d', q.1 ≠ m.1 := by
            intro q hq hqk
            exact hm (hd' ▸ (hqk ▸ List.mem_map_of_mem Prod.fst hq))
          obtain ⟨k0, v0⟩ := p
          simp only at hpk
          subst hpk
          simp only [group_run_loop]
          rw [dict_set_replace_head m.1 v0 m.2 d' hnot]
          rw [group_run_loop_cons_ne ms (m.1, m.2) d' ?_]
          · rw [ih d' hd' hms]
          · intro q hq hqk
            exact hm (hqk ▸ List.mem_map_of_mem Prod.fst hq)

/-- The severity update of the getResult loop computes sev_max. -/
theorem group_sev_step (cur p : result_type) :
    (if p = result_type.ERROR then result_type.ERROR
     else if p = result_type.WARNING ∧ cur ≠ result_type.ERROR then result_type.WARNING
     else cur) = sev_max cur p := by
  cases cur <;> cases p <;> decide

/-- Closed form of the getResult loop: severity is the sev_max fold of the
recorded severities and the message is the concatenation of the textual
Results, each followed by a newline. -/
theorem group_fold_closed (d : result_dict) (cur : result_type) (msg : String) :
    group_fold d cur msg
      = (d.foldl (fun a p => sev_max a p.2.result) cur,
         msg ++ concat_all (d.map (fun p => p.2.str ++ "\n"))) := by
  induction d generalizing cur msg with
  | nil => simp [group_fold, concat_all]
  | cons p d ih =>
      simp only [group_fold, List.foldl_cons, List.map_cons, concat_all]
      rw [group_sev_step, ih]
      simp [String.append_assoc]

/-- Claim C5 (amended): for a group whose members are pairwise DISTINCT
objects, initiate_test invokes each member in list order, records one dict
entry per member (so the table has exactly as many entries as members),
re-invoking overwrites the entries in place keeping size and order, and the
group-level Result has the worst recorded severity under
SUCCESS < WARNING < ERROR with the concatenation of every member's textual
Result as its message.  A duplicated member object breaks only the
one-entry-per-member count (see the counterexample). -/
theorem group_initiate_spec (g : test_ref)
    (subs subs2 : List (test_ref × repo_test_result))
    (h1 : (subs.map Prod.fst).Nodup)
    (h2 : subs2.map Prod.fst = subs.map Prod.fst) :
    (repo_test_group.initiate_test g subs []).1 = subs.map Prod.fst ∧
    (repo_test_group.initiate_test g subs []).2.1 = subs ∧
    (repo_test_group.initiate_test g subs2
        (repo_test_group.initiate_test g subs []).2.1).2.1 = subs2 ∧
    (repo_test_group.initiate_test g subs []).2.2
      = { test := g,
          result := subs.foldl (fun a p => sev_max a p.2.result) result_type.SUCCESS,
          msg := some (concat_all (subs.map (fun p => p.2.str ++ "\n"))) } := by
  have hdict : (group_run_loop subs []).2 = subs := by
    simpa using group_run_loop_fresh subs [] h1 (by simp)
  refine ⟨?_, ?_, ?_, ?_⟩
  · exact group_run_loop_trace subs []
  · exact hdict
  · show (group_run_loop subs2 (group_run_loop subs []).2).2 = subs2
    rw [hdict]
    exact group_run_loop_overwrite subs2 subs (by rw [h2]) (h2 ▸ h1)
  · show repo_test_group.getResult g (group_run_loop subs []).2 = _
    rw [hdict]
    unfold repo_test_group.getResult
    rw [group_fold_closed]
    rfl

/-- Claim C5 witness: the amended group theorem instantiated at a concrete
group of two distinct members, re-invoked with different results. -/
theorem group_initiate_spec_witness :
    (group_witness_subs.map Prod.fst).Nodup ∧
    group_witness_subs2.map Prod.fst = group_witness_subs.map Prod.fst ∧
    ((repo_test_group.initiate_test group_witness_g group_witness_subs []).1
        = group_witness_subs.map Prod.fst ∧
     (repo_test_group.initiate_test group_witness_g group_witness_subs []).2.1
        = group_witness_subs ∧
     (repo_test_group.initiate_test group_witness_g group_witness_subs2
         (repo_test_group.initiate_test group_witness_g group_witness_subs []).2.1).2.1
        = group_witness_subs2 ∧
     (repo_test_group.initiate_test group_witness_g group_witness_subs []).2.2
       = { test := group_witness_g,
           result := group_witness_subs.foldl (fun a p => sev_max a p.2.result)
             result_type.SUCCESS,
           msg := some (concat_all (group_witness_subs.map (fun p => p.2.str ++ "\n"))) }) :=
  ⟨by decide, by decide,
   group_initiate_spec group_witness_g group_witness_subs group_witness_subs2
     (by decide) (by decide)⟩

/-- Claim C6 (amended): whenever the consumer loop reaches its timeout check
with a positive configured timeout exceeded by the elapsed wall-clock time,
it prints the error message naming the exceeded number of seconds, terminates
the child, and returns the literal status 1 — a failure status distinct from
success (0) but NOT distinct from a child's normal exit status 1, so a caller
can distinguish a timeout only through the printed message, not through the
returned status (see the counterexample). -/
theorem timeout_returns_one (cfg : exec_cfg) (t e : Nat) (child_exit : Int)
    (rest : List exec_obs) (q : List String) (s : exec_sinks) (errs : List String)
    (ht : 0 < t) (he : t < e) :
    execute_command_loop cfg t child_exit
        ({ child_running := true, reader_alive := true, line_ready := false,
           elapsed := e } :: rest) q s errs
      = { pending := q, sinks := s, errors := errs ++ [exceeded_msg t],
          returncode := 1, terminated := true } ∧
    (1 : Int) ≠ 0 := by
  constructor
  · simp [execute_command_loop, ht, he]
  · decide

/-- Claim C6 witness: the timeout theorem instantiated at a 60-second timeout
observed at 61 elapsed seconds. -/
theorem timeout_returns_one_witness :
    0 < 60 ∧ 60 < 61 ∧
    (execute_command_loop { print_to_stdout := true, test_log_fp := false, fp := false }
        60 0
        [{ child_running := true, reader_alive := true, line_ready := false, elapsed := 61 }]
        ["tail"] { stdout_lines := [], test_log_lines := [], fp_lines := [] } []
      = { pending := ["tail"],
          sinks := { stdout_lines := [], test_log_lines := [], fp_lines := [] },
          errors := [exceeded_msg 60], returncode := 1, terminated := true } ∧
     (1 : Int) ≠ 0) :=
  ⟨by decide, by decide,
   timeout_returns_one { print_to_stdout := true, test_log_fp := false, fp := false }
     60 61 0 [] ["tail"] { stdout_lines := [], test_log_lines := [], fp_lines := [] } []
     (by decide) (by decide)⟩
